import Mathlib

/-!
Shallow embedding of `src/codereview.py`: a LangGraph workflow with three
nodes (`handle_reviewer`, `handle_coder`, `handle_result`), a conditional
router (`deployment_ready`), and a driver that seeds the state and prints
five fields of the final state.

The external LLM (`llm(x) = model.invoke(x).content`) is modelled as an
oracle `Gen : Nat → String → String`: the response may depend on the prompt
and on the index of the invocation (how many calls were made before it).
Each call appends its prompt to a trace `List String`, so the number and
content of generator invocations is observable.

Python specifics modelled explicitly:
  * `str.strip()` is `pyStrip` (drop leading/trailing whitespace; the
    common ASCII whitespace characters);
  * `'yes' in s` is `pyIn "yes" s`, a case-SENSITIVE substring test;
  * `state.get(k, '')` on a possibly missing key is `Option.getD "" `;
  * `"...".format(state.get('code'))` renders a missing key as `"None"`
    (`pyFmtOpt`), exactly as Python formats `None`;
  * `None + 1` and `None > 5` raise `TypeError`; the affected functions
    return `none` in that case.
-/

/-- Python whitespace characters stripped by `str.strip()` (ASCII subset). -/
def pyIsSpace (c : Char) : Bool :=
  c = ' ' || c = '\t' || c = '\n' || c = '\r' || c = '\x0b' || c = '\x0c'

/-- Model of Python `s.strip()`. -/
def pyStrip (s : String) : String :=
  ⟨((s.data.dropWhile pyIsSpace).reverse.dropWhile pyIsSpace).reverse⟩

/-- Substring containment on character lists: the first list occurs
contiguously in the second. -/
def listInfixOf (n : List Char) : List Char → Bool
  | [] => n.isEmpty
  | c :: t => List.isPrefixOf n (c :: t) || listInfixOf n t

/-- Model of Python `needle in hay` on strings: substring containment,
case-sensitive. -/
def pyIn (needle hay : String) : Bool :=
  listInfixOf needle.data hay.data

/-- Model of Python string prefix test on the underlying character lists. -/
def strIsPrefixOf (a b : String) : Bool :=
  List.isPrefixOf a.data b.data

/-- Model of `"...".format(x)` for an optional string: Python renders
`None` as the four characters `"None"`. -/
def pyFmtOpt : Option String → String
  | none => "None"
  | some s => s

/-- ASCII lowercasing, used only to state the spec's case-insensitive
reading of the resolution check. -/
def lowerAscii (s : String) : String :=
  ⟨s.data.map Char.toLower⟩

/-- Formalisation of the SPEC's words for the resolution check (not the
code): the response is searched case-insensitively for "yes". -/
def specContainsYesCI (s : String) : Bool :=
  pyIn "yes" (lowerAscii s)

/-- The `GraphState` TypedDict of `codereview.py`. A field is `none` when
the corresponding key is absent from the state dict. -/
structure GraphState where
  feedback : Option String
  history : Option String
  code : Option String
  specialization : Option String
  rating : Option String
  iterations : Option Int
  code_compare : Option String
  actual_code : Option String
deriving Repr, DecidableEq

/-- State with every key absent. -/
def emptyState : GraphState :=
  ⟨none, none, none, none, none, none, none, none⟩

/-- The text-generator oracle: response as a function of the invocation
index (number of calls made before this one) and the prompt. -/
def Gen : Type := Nat → String → String

/-- Prompt template `reviewer_start` (Python line continuations joined). -/
def reviewer_start (specialization code : String) : String :=
  "You are Code reviewer specialized in " ++ specialization ++
  ".You need to review the given code following PEP8 guidelines and potential bugsand point out issues as bullet list.Code:\n "
  ++ code

/-- Prompt template `coder_start`. -/
def coder_start (specialization feedback code : String) : String :=
  "You are a Coder specialized in " ++ specialization ++
  ".Improve the given code given the following guidelines. Guideline:\n " ++
  feedback ++ " \n Code:\n " ++ code ++ " \n Output just the improved code and nothing else."

/-- Prompt template `rating_start`. -/
def rating_start (history : String) : String :=
  "Rate the skills of the coder on a scale of 10 given the Code review cycle with a short reason.Code review:\n "
  ++ history ++ " \n "

/-- Prompt template `code_comparison`. -/
def code_comparison (code1 code2 : String) : String :=
  "Compare the two code snippets and rate on a scale of 10 to both. Dont output the codes.Revised Code: \n "
  ++ code1 ++ " \n Actual Code: \n " ++ code2

/-- Prompt template `classify_feedback`. -/
def classify_feedback (code feedback : String) : String :=
  "Are all feedback mentioned resolved in the code? Output just Yes or No.Code: \n "
  ++ code ++ " \n Feedback: \n " ++ feedback ++ " \n"

/-- Node `handle_reviewer`. Reads `history`, `code`, `specialization`
(stripped, defaulting to `""`), calls the generator on the reviewer prompt,
and returns the merged state: appends `"\n REVIEWER:\n" + feedback` to the
stripped history, sets `feedback`, increments `iterations`. Returns `none`
when `iterations` is absent (`None + 1` raises `TypeError` in Python; the
exception is raised after the LLM call, when the return dict is built). -/
def handle_reviewer (gen : Gen) (tr : List String) (s : GraphState) :
    Option (GraphState × List String) :=
  let history := pyStrip (s.history.getD "")
  let code := pyStrip (s.code.getD "")
  let specialization := pyStrip (s.specialization.getD "")
  let prompt := reviewer_start specialization code
  let feedback := gen tr.length prompt
  match s.iterations with
  | none => none
  | some it =>
      some ({ s with
                history := some (history ++ "\n REVIEWER:\n" ++ feedback),
                feedback := some feedback,
                iterations := some (it + 1) },
            tr ++ [prompt])

/-- Node `handle_coder`. Reads `history`, `feedback`, `code`,
`specialization` (stripped, defaulting to `""`), calls the generator on the
coder prompt, appends `"\n CODER:\n" + code` to the stripped history and
overwrites `code`. Total: no field read can raise. -/
def handle_coder (gen : Gen) (tr : List String) (s : GraphState) :
    GraphState × List String :=
  let history := pyStrip (s.history.getD "")
  let feedback := pyStrip (s.feedback.getD "")
  let code0 := pyStrip (s.code.getD "")
  let specialization := pyStrip (s.specialization.getD "")
  let prompt := coder_start specialization feedback code0
  let code := gen tr.length prompt
  ({ s with
       history := some (history ++ "\n CODER:\n" ++ code),
       code := some code },
   tr ++ [prompt])

/-- Node `handle_result` (the Finalizer). Two generator invocations: one
rating the stripped history, one comparing the stripped `code` against the
stripped `actual_code`; sets `rating` and `code_compare`. -/
def handle_result (gen : Gen) (tr : List String) (s : GraphState) :
    GraphState × List String :=
  let history := pyStrip (s.history.getD "")
  let code1 := pyStrip (s.code.getD "")
  let code2 := pyStrip (s.actual_code.getD "")
  let p1 := rating_start history
  let rating := gen tr.length p1
  let tr1 := tr ++ [p1]
  let p2 := code_comparison code1 code2
  let code_compare := gen tr1.length p2
  ({ s with rating := some rating, code_compare := some code_compare },
   tr1 ++ [p2])

/-- Conditional router `deployment_ready`. First invokes the generator on
the `classify_feedback` prompt (with the UNstripped `code` and `feedback`;
a missing key is formatted as `"None"`), then tests `'yes' in response`
(case-sensitive) and `iterations > 5`, and routes to `"handle_result"`
when either holds, else `"handle_coder"`. The route is `none` when
`iterations` is absent (`None > 5` raises `TypeError`, after the LLM
call); the prompt trace records the call in every case. -/
def deployment_ready (gen : Gen) (tr : List String) (s : GraphState) :
    Option String × List String :=
  let prompt := classify_feedback (pyFmtOpt s.code) (pyFmtOpt s.feedback)
  let resp := gen tr.length prompt
  let dep : Bool := pyIn "yes" resp
  let tr1 := tr ++ [prompt]
  match s.iterations with
  | none => (none, tr1)
  | some it =>
      (some (if dep || decide (5 < it) then "handle_result" else "handle_coder"), tr1)

/-- Result of running the compiled graph: `done finalState trace reviews
coders` on normal completion (counting executions of `handle_reviewer` and
`handle_coder`), `stepError` when a step raised, `outOfFuel` when the fuel
bound was hit. -/
inductive RunResult where
  | done (s : GraphState) (tr : List String) (reviews coders : Nat)
  | stepError
  | outOfFuel
deriving Repr, DecidableEq

/-- The graph loop: entry point `handle_reviewer`; its conditional edge
routes through `deployment_ready` to `handle_result` (then END) or to
`handle_coder` (then back to `handle_reviewer`). `r` and `c` count the
reviewer and coder executions so far. -/
def loop (gen : Gen) : Nat → GraphState → List String → Nat → Nat → RunResult
  | 0, _, _, _, _ => RunResult.outOfFuel
  | fuel + 1, s, tr, r, c =>
    match handle_reviewer gen tr s with
    | none => RunResult.stepError
    | some (s1, tr1) =>
      match deployment_ready gen tr1 s1 with
      | (none, _) => RunResult.stepError
      | (some route, tr2) =>
        if route = "handle_result" then
          let res := handle_result gen tr2 s1
          RunResult.done res.1 res.2 (r + 1) c
        else
          let res := handle_coder gen tr2 s1
          loop gen fuel res.1 res.2 (r + 1) (c + 1)

/-- The fixed problem statement of the driver code. -/
def problem : String :=
  "Generate code to train a Regression ML model using a tabular dataset following required preprocessing steps."

/-- The initial state passed to `app.invoke`: `history`, `code` and
`actual_code` all set to the seed draft, `specialization` to `"python"`,
`iterations` to `0`. -/
def initConversation (seed : String) : GraphState :=
  { emptyState with
      history := some seed,
      code := some seed,
      actual_code := some seed,
      specialization := some "python",
      iterations := some 0 }

/-- The whole driver: one unconditioned generator call on `problem` seeds
the state, then the graph runs. -/
def app_invoke (gen : Gen) (fuel : Nat) : RunResult :=
  let seed := gen 0 problem
  loop gen fuel (initConversation seed) [problem] 0 0

/-- The five `print(conversation[k])` lines at the end of the script, in
source order; `none` models a `KeyError` on a missing key. -/
def printOutputs (s : GraphState) : Option (List String) :=
  match s.code, s.history, s.feedback, s.rating, s.code_compare with
  | some a, some b, some c, some d, some e => some [a, b, c, d, e]
  | _, _, _, _, _ => none

/-- Stub generator that never approves anything. -/
def genNo : Gen := fun _ _ => "No."

/-- Stub generator answering the exact capitalised sentence of the spec's
immediate-approval scenario. -/
def genYesCap : Gen := fun _ _ => "Yes, all issues resolved."

/-- Stub generator whose answers contain a lowercase "yes". -/
def genYesLower : Gen := fun _ _ => "yes"

/-- Stub generator that always answers the empty string. -/
def genEmpty : Gen := fun _ _ => ""

/-- Reviewer count of a finished run. -/
def runReviews : RunResult → Option Nat
  | RunResult.done _ _ r _ => some r
  | _ => none

/-- Coder count of a finished run. -/
def runCoders : RunResult → Option Nat
  | RunResult.done _ _ _ c => some c
  | _ => none

/-- Final state of a finished run. -/
def finishedState : RunResult → Option GraphState
  | RunResult.done s _ _ _ => some s
  | _ => none

/-- History of the state produced by a reviewer step, when it succeeds. -/
def reviewerNewHistory (gen : Gen) (tr : List String) (s : GraphState) :
    Option String :=
  match handle_reviewer gen tr s with
  | none => none
  | some (s1, _) => s1.history

/-- A list is a Boolean prefix of itself followed by anything. -/
lemma list_isPrefixOf_append (l t : List Char) :
    List.isPrefixOf l (l ++ t) = true := by
  induction l with
  | nil => simp [List.isPrefixOf]
  | cons c cs ih => simp [List.isPrefixOf, ih]

/-- Character data of an appended string. -/
lemma data_append (a b : String) : (a ++ b).data = a.data ++ b.data := by
  cases a; cases b; rfl

/-- A string is a prefix of itself followed by anything. -/
lemma strIsPrefixOf_append (a b : String) :
    strIsPrefixOf a (a ++ b) = true := by
  unfold strIsPrefixOf
  rw [data_append]
  exact list_isPrefixOf_append a.data b.data

/-- State used in the C1 counterexample: one iteration done, `code` and
`feedback` present. -/
def c1state : GraphState :=
  { emptyState with iterations := some 1, code := some "c", feedback := some "f" }

/-- C1, counterexample. The spec claims the resolution check is
case-insensitive. On the state after one iteration with resolution-check
response `"Yes, all issues resolved."` (which contains "yes"
case-insensitively, so the claim mandates termination), the code routes to
`"handle_coder"` (continue): Python's `'yes' in response` is
case-sensitive and misses the capitalised `"Yes"`. -/
theorem c1_counterexample :
    ¬ (((deployment_ready genYesCap [] c1state).1 = some "handle_coder") ↔
       ((1 : Int) ≤ 5 ∧
        specContainsYesCI (genYesCap 0 (classify_feedback "c" "f")) = false)) := by
  decide

/-- C1, amended: the Termination Policy returns `"handle_coder"`
(continue) iff `iterations <= 5` and the resolution-check response does
not contain the substring "yes" under CASE-SENSITIVE search; otherwise it
returns `"handle_result"` (terminate). -/
theorem c1_policy_continue_iff (gen : Gen) (tr : List String) (s : GraphState)
    (it : Int) (h : s.iterations = some it) :
    ((deployment_ready gen tr s).1 = some "handle_coder" ↔
      (it ≤ 5 ∧
       pyIn "yes" (gen tr.length
         (classify_feedback (pyFmtOpt s.code) (pyFmtOpt s.feedback))) = false)) ∧
    ((deployment_ready gen tr s).1 = some "handle_result" ↔
      ¬ (it ≤ 5 ∧
       pyIn "yes" (gen tr.length
         (classify_feedback (pyFmtOpt s.code) (pyFmtOpt s.feedback))) = false)) := by
  cases hdep : pyIn "yes" (gen tr.length
      (classify_feedback (pyFmtOpt s.code) (pyFmtOpt s.feedback))) with
  | false =>
    by_cases hit : (5 : Int) < it <;>
      (simp [deployment_ready, h, hdep, hit]; try omega)
  | true =>
    simp [deployment_ready, h, hdep]

/-- C1 witness: the amended policy characterisation instantiated on a
concrete state and a stub generator answering `"No."`. -/
theorem c1_witness :
    ((deployment_ready genNo [] c1state).1 = some "handle_coder" ↔
      ((1 : Int) ≤ 5 ∧
       pyIn "yes" (genNo (List.length ([] : List String))
         (classify_feedback (pyFmtOpt c1state.code) (pyFmtOpt c1state.feedback))) = false)) ∧
    ((deployment_ready genNo [] c1state).1 = some "handle_result" ↔
      ¬ ((1 : Int) ≤ 5 ∧
       pyIn "yes" (genNo (List.length ([] : List String))
         (classify_feedback (pyFmtOpt c1state.code) (pyFmtOpt c1state.feedback))) = false)) :=
  c1_policy_continue_iff genNo [] c1state 1 rfl

/-- C10: the resolution-check generator invocation happens on every
`deployment_ready` evaluation — the prompt trace always grows by exactly
the classification prompt, whatever the state holds — and in particular it
is not short-circuited when `iterations > 5` already forces termination. -/
theorem c10_classification_unconditional :
    (∀ (gen : Gen) (tr : List String) (s : GraphState),
        (deployment_ready gen tr s).2
          = tr ++ [classify_feedback (pyFmtOpt s.code) (pyFmtOpt s.feedback)]) ∧
    (∀ (gen : Gen) (tr : List String) (s : GraphState) (it : Int),
        s.iterations = some it → 5 < it →
        (deployment_ready gen tr s).1 = some "handle_result" ∧
        (deployment_ready gen tr s).2.length = tr.length + 1) := by
  constructor
  · intro gen tr s
    cases h : s.iterations <;> simp [deployment_ready, h]
  · intro gen tr s it h hit
    simp [deployment_ready, h, hit]

/-- C10 witness: on a state past the cap the classification call is still
made (trace grows by one) and the route is `"handle_result"`. -/
theorem c10_witness :
    (deployment_ready genNo [] { emptyState with iterations := some 6 }).1
      = some "handle_result" ∧
    (deployment_ready genNo [] { emptyState with iterations := some 6 }).2.length
      = List.length ([] : List String) + 1 :=
  c10_classification_unconditional.2 genNo [] { emptyState with iterations := some 6 }
    6 rfl (by decide)

/-- State after the first reviewer step of a run seeded with `"s"` under
the never-approving stub. -/
def rev1 : GraphState :=
  ((handle_reviewer genNo [] (initConversation "s")).getD (emptyState, [])).1

/-- Prompt trace after that reviewer step. -/
def rev1tr : List String :=
  ((handle_reviewer genNo [] (initConversation "s")).getD (emptyState, [])).2

/-- C9: the Finalizer makes exactly two generator invocations — first the
rating prompt over the stripped history, then the comparison prompt over
the stripped `code` and `actual_code` — sets `rating` and `code_compare`
from those two responses, and is terminal: whenever the router returns
`"handle_result"`, the loop ends with the Finalizer's state as the final
one, with no further reviewer or coder execution. -/
theorem c9_finalizer :
    (∀ (gen : Gen) (tr : List String) (s : GraphState),
        handle_result gen tr s
          = ({ s with
                 rating := some (gen tr.length
                   (rating_start (pyStrip (s.history.getD "")))),
                 code_compare := some (gen (tr.length + 1)
                   (code_comparison (pyStrip (s.code.getD ""))
                     (pyStrip (s.actual_code.getD "")))) },
             tr ++ [rating_start (pyStrip (s.history.getD "")),
                    code_comparison (pyStrip (s.code.getD ""))
                      (pyStrip (s.actual_code.getD ""))])) ∧
    (∀ (gen : Gen) (fuel : Nat) (s : GraphState) (tr : List String) (r c : Nat)
        (s1 : GraphState) (tr1 tr2 : List String),
        handle_reviewer gen tr s = some (s1, tr1) →
        deployment_ready gen tr1 s1 = (some "handle_result", tr2) →
        loop gen (fuel + 1) s tr r c
          = RunResult.done (handle_result gen tr2 s1).1
              (handle_result gen tr2 s1).2 (r + 1) c) := by
  constructor
  · intro gen tr s
    simp [handle_result]
  · intro gen fuel s tr r c s1 tr1 tr2 hrev hdep
    simp [loop, hrev, hdep]

/-- First-reviewer state of the immediate-approval scenario. -/
def c9s1 : GraphState :=
  ((handle_reviewer genYesLower [] (initConversation "s")).getD (emptyState, [])).1

/-- First-reviewer trace of the immediate-approval scenario. -/
def c9tr1 : List String :=
  ((handle_reviewer genYesLower [] (initConversation "s")).getD (emptyState, [])).2

/-- Trace after the first router evaluation of that scenario. -/
def c9tr2 : List String := (deployment_ready genYesLower c9tr1 c9s1).2

/-- C9 witness: under the stub answering `"yes"`, the first router
decision is `"handle_result"` and the run ends in the Finalizer's state. -/
theorem c9_witness :
    loop genYesLower (6 + 1) (initConversation "s") [] 0 0
      = RunResult.done (handle_result genYesLower c9tr2 c9s1).1
          (handle_result genYesLower c9tr2 c9s1).2 (0 + 1) 0 :=
  c9_finalizer.2 genYesLower 6 (initConversation "s") [] 0 0 c9s1 c9tr1 c9tr2
    (by rfl) (by rfl)

/-- C7: `specialization` and `actual_code` are never written by any node;
each node also leaves every field outside its documented outputs
unchanged (reviewer writes only `history`, `feedback`, `iterations`;
coder only `history`, `code`; the Finalizer only `rating`,
`code_compare`; the router `deployment_ready` returns a route and writes
no state at all, as its type shows). -/
theorem c7_frames :
    (∀ (gen : Gen) (tr : List String) (s s1 : GraphState) (tr1 : List String),
        handle_reviewer gen tr s = some (s1, tr1) →
        s1.specialization = s.specialization ∧ s1.actual_code = s.actual_code ∧
        s1.code = s.code ∧ s1.rating = s.rating ∧
        s1.code_compare = s.code_compare) ∧
    (∀ (gen : Gen) (tr : List String) (s : GraphState),
        (handle_coder gen tr s).1.specialization = s.specialization ∧
        (handle_coder gen tr s).1.actual_code = s.actual_code ∧
        (handle_coder gen tr s).1.feedback = s.feedback ∧
        (handle_coder gen tr s).1.iterations = s.iterations ∧
        (handle_coder gen tr s).1.rating = s.rating ∧
        (handle_coder gen tr s).1.code_compare = s.code_compare) ∧
    (∀ (gen : Gen) (tr : List String) (s : GraphState),
        (handle_result gen tr s).1.specialization = s.specialization ∧
        (handle_result gen tr s).1.actual_code = s.actual_code ∧
        (handle_result gen tr s).1.code = s.code ∧
        (handle_result gen tr s).1.feedback = s.feedback ∧
        (handle_result gen tr s).1.history = s.history ∧
        (handle_result gen tr s).1.iterations = s.iterations) := by
  refine ⟨?_, ?_, ?_⟩
  · intro gen tr s s1 tr1 h
    cases hit : s.iterations with
    | none => simp [handle_reviewer, hit] at h
    | some it =>
      simp [handle_reviewer, hit] at h
      obtain ⟨h1, h2⟩ := h
      subst h1
      simp
  · intro gen tr s
    simp [handle_coder]
  · intro gen tr s
    simp [handle_result]

/-- C7 witness: the reviewer frame conditions hold on the concrete first
step of a seeded run. -/
theorem c7_witness :
    rev1.specialization = (initConversation "s").specialization ∧
    rev1.actual_code = (initConversation "s").actual_code ∧
    rev1.code = (initConversation "s").code ∧
    rev1.rating = (initConversation "s").rating ∧
    rev1.code_compare = (initConversation "s").code_compare :=
  c7_frames.1 genNo [] (initConversation "s") rev1 rev1tr (by rfl)

/-- State used in the C5 counterexample: its history is fifteen spaces. -/
def c5state : GraphState :=
  { emptyState with
      history := some "               ",
      code := some "c",
      specialization := some "p",
      iterations := some 0 }

/-- C5, counterexample. With a whitespace-only accumulated history and an
empty feedback response, the reviewer step produces history
`"\n REVIEWER:\n"`: the separator actually appended is `"\n REVIEWER:\n"`
(with a space), not the claimed `"\nREVIEWER:\n"`; the previous history is
NOT preserved as a prefix (it is stripped first); and the history length
DECREASES from 15 to 12. -/
theorem c5_counterexample :
    reviewerNewHistory genEmpty [] c5state = some "\n REVIEWER:\n" ∧
    strIsPrefixOf "               " "\n REVIEWER:\n" = false ∧
    ¬ ("\n REVIEWER:\n" = "               " ++ "\nREVIEWER:\n" ++ "") ∧
    ¬ ("               ".length ≤ "\n REVIEWER:\n".length) := by
  refine ⟨by rfl, by decide, by decide, by decide⟩

/-- C5, amended: the reviewer step sets history to the whitespace-STRIPPED
previous history followed by `"\n REVIEWER:\n"` and the feedback; the
coder step sets it to the stripped previous history followed by
`"\n CODER:\n"` and the new code; in each case the stripped previous
history is preserved as a prefix (the unstripped one in general is not,
and the length can decrease when the old history carries surrounding
whitespace); the Finalizer leaves history unchanged. -/
theorem c5_history_append :
    (∀ (gen : Gen) (tr : List String) (s s1 : GraphState) (tr1 : List String),
        handle_reviewer gen tr s = some (s1, tr1) →
        s1.history = some (pyStrip (s.history.getD "") ++ "\n REVIEWER:\n" ++
          gen tr.length (reviewer_start (pyStrip (s.specialization.getD ""))
            (pyStrip (s.code.getD "")))) ∧
        strIsPrefixOf (pyStrip (s.history.getD "")) (s1.history.getD "") = true) ∧
    (∀ (gen : Gen) (tr : List String) (s : GraphState),
        (handle_coder gen tr s).1.history
          = some (pyStrip (s.history.getD "") ++ "\n CODER:\n" ++
              gen tr.length (coder_start (pyStrip (s.specialization.getD ""))
                (pyStrip (s.feedback.getD "")) (pyStrip (s.code.getD "")))) ∧
        strIsPrefixOf (pyStrip (s.history.getD ""))
          ((handle_coder gen tr s).1.history.getD "") = true) ∧
    (∀ (gen : Gen) (tr : List String) (s : GraphState),
        (handle_result gen tr s).1.history = s.history) := by
  refine ⟨?_, ?_, ?_⟩
  · intro gen tr s s1 tr1 h
    cases hit : s.iterations with
    | none => simp [handle_reviewer, hit] at h
    | some it =>
      simp [handle_reviewer, hit] at h
      obtain ⟨h1, h2⟩ := h
      subst h1
      refine ⟨by simp, ?_⟩
      simp only [Option.getD_some]
      rw [String.append_assoc]
      exact strIsPrefixOf_append _ _
  · intro gen tr s
    refine ⟨by simp [handle_coder], ?_⟩
    simp only [handle_coder, Option.getD_some]
    rw [String.append_assoc]
    exact strIsPrefixOf_append _ _
  · intro gen tr s
    simp [handle_result]

/-- C5 witness: the amended reviewer history equation on the concrete
first step of a seeded run. -/
theorem c5_witness :
    rev1.history = some (pyStrip ((initConversation "s").history.getD "") ++
      "\n REVIEWER:\n" ++
      genNo (List.length ([] : List String))
        (reviewer_start (pyStrip ((initConversation "s").specialization.getD ""))
          (pyStrip ((initConversation "s").code.getD "")))) ∧
    strIsPrefixOf (pyStrip ((initConversation "s").history.getD ""))
      (rev1.history.getD "") = true :=
  c5_history_append.1 genNo [] (initConversation "s") rev1 rev1tr (by rfl)

/-- State used in the C6 counterexample: every string field present but
empty, `iterations` absent. -/
def c6state : GraphState :=
  { emptyState with
      history := some "", code := some "", specialization := some "" }

/-- C6, counterexample. On a state whose `iterations` key is absent, the
reviewer step does NOT degrade gracefully: `None + 1` raises `TypeError`
(modelled as `none`), and the router's `None > 5` likewise raises. -/
theorem c6_counterexample :
    handle_reviewer genNo [] c6state = none ∧
    (deployment_ready genNo [] c6state).1 = none := by
  refine ⟨by rfl, by rfl⟩

/-- C6, amended: missing or empty STRING fields never make a step raise —
whenever `iterations` is present the reviewer step succeeds, templating
the (possibly empty) defaulted values into its prompt — but an absent
`iterations` makes the Reviewer Step (and the Termination Policy) raise a
`TypeError`, aborting the run. -/
theorem c6_degraded_or_raise :
    (∀ (gen : Gen) (tr : List String) (s : GraphState) (it : Int),
        s.iterations = some it →
        ∃ s1, handle_reviewer gen tr s
          = some (s1, tr ++ [reviewer_start (pyStrip (s.specialization.getD ""))
              (pyStrip (s.code.getD ""))])) ∧
    (∀ (gen : Gen) (tr : List String) (s : GraphState),
        s.iterations = none → handle_reviewer gen tr s = none) ∧
    (∀ (gen : Gen) (tr : List String) (s : GraphState),
        s.iterations = none → (deployment_ready gen tr s).1 = none) := by
  refine ⟨?_, ?_, ?_⟩
  · intro gen tr s it h
    refine ⟨{ s with
        history := some (pyStrip (s.history.getD "") ++ "\n REVIEWER:\n" ++
          gen tr.length (reviewer_start (pyStrip (s.specialization.getD ""))
            (pyStrip (s.code.getD "")))),
        feedback := some (gen tr.length
          (reviewer_start (pyStrip (s.specialization.getD ""))
            (pyStrip (s.code.getD "")))),
        iterations := some (it + 1) }, ?_⟩
    simp [handle_reviewer, h]
  · intro gen tr s h
    simp [handle_reviewer, h]
  · intro gen tr s h
    simp [deployment_ready, h]

/-- State with only `iterations` present, used in the C6 witness. -/
def c6ok : GraphState := { emptyState with iterations := some 0 }

/-- C6 witness: with every string field absent but `iterations` present,
the reviewer step succeeds and sends the prompt built from empty values. -/
theorem c6_witness :
    ∃ s1, handle_reviewer genNo [] c6ok
      = some (s1, [] ++ [reviewer_start (pyStrip (c6ok.specialization.getD ""))
          (pyStrip (c6ok.code.getD ""))]) :=
  c6_degraded_or_raise.1 genNo [] c6ok 0 rfl

/-- Closed form of a successful reviewer step. -/
lemma reviewer_step_eq (gen : Gen) (tr : List String) (s : GraphState)
    (it : Int) (h : s.iterations = some it) :
    handle_reviewer gen tr s
      = some ({ s with
            history := some (pyStrip (s.history.getD "") ++ "\n REVIEWER:\n" ++
              gen tr.length (reviewer_start (pyStrip (s.specialization.getD ""))
                (pyStrip (s.code.getD "")))),
            feedback := some (gen tr.length
              (reviewer_start (pyStrip (s.specialization.getD ""))
                (pyStrip (s.code.getD "")))),
            iterations := some (it + 1) },
          tr ++ [reviewer_start (pyStrip (s.specialization.getD ""))
            (pyStrip (s.code.getD ""))]) := by
  simp [handle_reviewer, h]

/-- Closed form of a router evaluation when `iterations` is present. -/
lemma router_eq (gen : Gen) (tr : List String) (s : GraphState)
    (it : Int) (h : s.iterations = some it) :
    deployment_ready gen tr s
      = (some (if pyIn "yes" (gen tr.length
            (classify_feedback (pyFmtOpt s.code) (pyFmtOpt s.feedback)))
            || decide (5 < it)
          then "handle_result" else "handle_coder"),
         tr ++ [classify_feedback (pyFmtOpt s.code) (pyFmtOpt s.feedback)]) := by
  simp [deployment_ready, h]

/-- When the router answers `"handle_result"`, the loop finishes at once
with the Finalizer's output. -/
lemma loop_result_now (gen : Gen) (fuel : Nat) (s : GraphState)
    (tr : List String) (r c : Nat) (s1 : GraphState) (tr1 tr2 : List String)
    (hrev : handle_reviewer gen tr s = some (s1, tr1))
    (hdep : deployment_ready gen tr1 s1 = (some "handle_result", tr2)) :
    loop gen (fuel + 1) s tr r c
      = RunResult.done (handle_result gen tr2 s1).1
          (handle_result gen tr2 s1).2 (r + 1) c := by
  simp [loop, hrev, hdep]

/-- When the router answers `"handle_coder"`, the loop continues with the
coder's output. -/
lemma loop_coder_next (gen : Gen) (fuel : Nat) (s : GraphState)
    (tr : List String) (r c : Nat) (s1 : GraphState) (tr1 tr2 : List String)
    (hrev : handle_reviewer gen tr s = some (s1, tr1))
    (hdep : deployment_ready gen tr1 s1 = (some "handle_coder", tr2)) :
    loop gen (fuel + 1) s tr r c
      = loop gen fuel (handle_coder gen tr2 s1).1
          (handle_coder gen tr2 s1).2 (r + 1) (c + 1) := by
  simp [loop, hrev, hdep]

/-- Collapsing the router's string comparison: branching on whether the
route string equals `"handle_result"` is branching on the Boolean that
produced it. -/
lemma ite_route {α : Sort _} (b : Bool) (x y : α) :
    (if ((if (b = true) then "handle_result" else "handle_coder") = "handle_result")
      then x else y) = if (b = true) then x else y := by
  by_cases hb : b = true <;> simp [hb]

/-- If the loop enters with `iterations = r` (the reviewer count so far)
then any normal completion leaves `iterations` equal to the final reviewer
count. -/
lemma loop_iterations (gen : Gen) (fuel : Nat) :
    ∀ (s : GraphState) (tr : List String) (r c : Nat) (s' : GraphState)
      (tr' : List String) (r' c' : Nat),
      s.iterations = some ((r : Nat) : Int) →
      loop gen fuel s tr r c = RunResult.done s' tr' r' c' →
      s'.iterations = some ((r' : Nat) : Int) := by
  induction fuel with
  | zero =>
    intro s tr r c s' tr' r' c' _ h
    simp [loop] at h
  | succ fuel ih =>
    intro s tr r c s' tr' r' c' hs h
    simp only [loop, reviewer_step_eq gen tr s _ hs] at h
    rw [router_eq gen _ _ ((r : Int) + 1) rfl] at h
    simp only [ite_route] at h
    split at h
    · simp only [RunResult.done.injEq] at h
      obtain ⟨h1, _, h3, _⟩ := h
      subst h1
      subst h3
      simp [handle_result, Nat.cast_add_one]
    · refine ih _ _ (r + 1) (c + 1) s' tr' r' c' ?_ h
      simp [handle_coder, Nat.cast_add_one]

/-- C4: `iterations` counts Reviewer Step executions exactly. A successful
reviewer step increments it by exactly 1; the coder and Finalizer steps
leave it unchanged (the router touches no state by its type); and a run
entered with `iterations` equal to the reviewer count so far finishes with
`iterations` equal to the final reviewer count — in particular, a run
started at 0 has `iterations = n` after its `n` reviewer executions. -/
theorem c4_iterations_counter :
    (∀ (gen : Gen) (tr : List String) (s : GraphState) (it : Int)
        (s1 : GraphState) (tr1 : List String),
        s.iterations = some it → handle_reviewer gen tr s = some (s1, tr1) →
        s1.iterations = some (it + 1)) ∧
    (∀ (gen : Gen) (tr : List String) (s : GraphState),
        (handle_coder gen tr s).1.iterations = s.iterations) ∧
    (∀ (gen : Gen) (tr : List String) (s : GraphState),
        (handle_result gen tr s).1.iterations = s.iterations) ∧
    (∀ (gen : Gen) (fuel : Nat) (s : GraphState) (tr : List String) (r c : Nat)
        (s' : GraphState) (tr' : List String) (r' c' : Nat),
        s.iterations = some ((r : Nat) : Int) →
        loop gen fuel s tr r c = RunResult.done s' tr' r' c' →
        s'.iterations = some ((r' : Nat) : Int)) := by
  refine ⟨?_, ?_, ?_, ?_⟩
  · intro gen tr s it s1 tr1 h hrev
    rw [reviewer_step_eq gen tr s it h] at hrev
    simp only [Option.some.injEq, Prod.mk.injEq] at hrev
    obtain ⟨h1, _⟩ := hrev
    subst h1
    simp
  · intro gen tr s
    simp [handle_coder]
  · intro gen tr s
    simp [handle_result]
  · intro gen fuel
    exact loop_iterations gen fuel

/-- C4 witness: after the concrete first reviewer step of a seeded run,
`iterations` moved from 0 to 1. -/
theorem c4_witness : rev1.iterations = some ((0 : Int) + 1) :=
  c4_iterations_counter.1 genNo [] (initConversation "s") 0 rev1 rev1tr rfl (by rfl)

/-- Under a never-approving generator, a loop entered with `iterations = k`
(for `k ≤ 5`) runs exactly `6 - k` further reviewer rounds and then stops. -/
lemma loop_cap_aux (gen : Gen)
    (hgen : ∀ (n : Nat) (cde fb : String),
      pyIn "yes" (gen n (classify_feedback cde fb)) = false)
    (fuel : Nat) :
    ∀ (k : Nat) (s : GraphState) (tr : List String) (r c : Nat),
      k ≤ 5 → s.iterations = some ((k : Nat) : Int) → 6 - k ≤ fuel →
      ∃ s' tr', loop gen fuel s tr r c
          = RunResult.done s' tr' (r + (6 - k)) (c + (5 - k)) ∧
        s'.iterations = some 6 := by
  induction fuel with
  | zero =>
    intro k s tr r c hk hs hf
    omega
  | succ fuel ih =>
    intro k s tr r c hk hs hf
    obtain ⟨s1, tr1, hrev, hs1⟩ :
        ∃ s1 tr1, handle_reviewer gen tr s = some (s1, tr1) ∧
          s1.iterations = some (((k : Nat) : Int) + 1) :=
      ⟨_, _, reviewer_step_eq gen tr s _ hs, rfl⟩
    by_cases hk5 : k = 5
    · subst hk5
      have hroute : deployment_ready gen tr1 s1
          = (some "handle_result",
             tr1 ++ [classify_feedback (pyFmtOpt s1.code) (pyFmtOpt s1.feedback)]) := by
        rw [router_eq gen tr1 s1 _ hs1, hgen]
        norm_num
      refine ⟨(handle_result gen
          (tr1 ++ [classify_feedback (pyFmtOpt s1.code) (pyFmtOpt s1.feedback)]) s1).1,
        (handle_result gen
          (tr1 ++ [classify_feedback (pyFmtOpt s1.code) (pyFmtOpt s1.feedback)]) s1).2,
        ?_, ?_⟩
      · have hres := loop_result_now gen fuel s tr r c s1 tr1 _ hrev hroute
        simpa using hres
      · simp [handle_result, hs1]
    · have hroute : deployment_ready gen tr1 s1
          = (some "handle_coder",
             tr1 ++ [classify_feedback (pyFmtOpt s1.code) (pyFmtOpt s1.feedback)]) := by
        rw [router_eq gen tr1 s1 _ hs1, hgen]
        have hlt : ¬ (5 < ((k : Nat) : Int) + 1) := by
          omega
        simp [hlt]
      have hstep := loop_coder_next gen fuel s tr r c s1 tr1 _ hrev hroute
      have hs2 : (handle_coder gen
          (tr1 ++ [classify_feedback (pyFmtOpt s1.code) (pyFmtOpt s1.feedback)])
          s1).1.iterations = some (((k + 1 : Nat) : Nat) : Int) := by
        simp [handle_coder, hs1, Nat.cast_add_one]
      obtain ⟨s', tr', hloop, h6⟩ :=
        ih (k + 1) _ _ (r + 1) (c + 1) (by omega) hs2 (by omega)
      have e1 : (r + 1) + (6 - (k + 1)) = r + (6 - k) := by omega
      have e2 : (c + 1) + (5 - (k + 1)) = c + (5 - k) := by omega
      rw [e1, e2] at hloop
      exact ⟨s', tr', by rw [hstep]; exact hloop, h6⟩

/-- C2: with a Text Generator stub that never reports the feedback
resolved, a run started with `iterations = 0` finishes with exactly 6
reviewer executions and 5 coder executions — the final state has
`iterations = 6 > 5` and, the loop having returned, no 7th reviewer step
runs. -/
theorem c2_iteration_cap (gen : Gen) (s : GraphState) (tr : List String)
    (fuel : Nat)
    (hgen : ∀ (n : Nat) (cde fb : String),
      pyIn "yes" (gen n (classify_feedback cde fb)) = false)
    (hs : s.iterations = some 0) (hfuel : 6 ≤ fuel) :
    ∃ s' tr', loop gen fuel s tr 0 0 = RunResult.done s' tr' 6 5 ∧
      s'.iterations = some 6 := by
  have h := loop_cap_aux gen hgen fuel 0 s tr 0 0 (by omega)
    (by simpa using hs) (by omega)
  simpa using h

/-- C2 witness: the concrete never-approving stub run stops after exactly
6 reviewer and 5 coder executions with `iterations = 6`. -/
theorem c2_witness :
    ∃ s' tr', loop genNo 6 (initConversation "s") [] 0 0
        = RunResult.done s' tr' 6 5 ∧ s'.iterations = some 6 :=
  c2_iteration_cap genNo (initConversation "s") [] 6
    (fun _ _ _ => rfl) rfl (by omega)

/-- C3, counterexample. With the spec's own stub — every response is
`"Yes, all issues resolved."` (which the spec's case-insensitive reading
classifies as approval) — the run does NOT stop after 1 reviewer step:
the case-sensitive `'yes' in response` check misses the capital "Yes", so
the loop runs to the iteration cap with 6 reviewer and 5 coder
executions. -/
theorem c3_counterexample :
    runReviews (loop genYesCap 7 (initConversation "c0") [] 0 0) = some 6 ∧
    runCoders (loop genYesCap 7 (initConversation "c0") [] 0 0) = some 5 ∧
    specContainsYesCI (genYesCap 0 (classify_feedback "c0" "c0")) = true := by
  refine ⟨by rfl, by rfl, by rfl⟩

/-- C3, amended: when the resolution-check responses contain a LOWERCASE
"yes" (for example `"yes, all issues resolved."`; the capitalised
`"Yes, all issues resolved."` does not qualify), a run started with
`iterations = 0` performs exactly 1 reviewer execution and 0 coder
executions and hands the Finalizer a state with `iterations = 1`. -/
theorem c3_immediate_approval (gen : Gen) (s : GraphState) (tr : List String)
    (fuel : Nat)
    (hgen : ∀ (n : Nat) (cde fb : String),
      pyIn "yes" (gen n (classify_feedback cde fb)) = true)
    (hs : s.iterations = some 0) :
    ∃ s' tr', loop gen (fuel + 1) s tr 0 0 = RunResult.done s' tr' 1 0 ∧
      s'.iterations = some 1 := by
  obtain ⟨s1, tr1, hrev, hs1⟩ :
      ∃ s1 tr1, handle_reviewer gen tr s = some (s1, tr1) ∧
        s1.iterations = some ((0 : Int) + 1) :=
    ⟨_, _, reviewer_step_eq gen tr s 0 hs, rfl⟩
  have hroute : deployment_ready gen tr1 s1
      = (some "handle_result",
         tr1 ++ [classify_feedback (pyFmtOpt s1.code) (pyFmtOpt s1.feedback)]) := by
    rw [router_eq gen tr1 s1 _ hs1, hgen]
    simp
  refine ⟨(handle_result gen
      (tr1 ++ [classify_feedback (pyFmtOpt s1.code) (pyFmtOpt s1.feedback)]) s1).1,
    (handle_result gen
      (tr1 ++ [classify_feedback (pyFmtOpt s1.code) (pyFmtOpt s1.feedback)]) s1).2,
    ?_, ?_⟩
  · exact loop_result_now gen fuel s tr 0 0 s1 tr1 _ hrev hroute
  · simp [handle_result, hs1]

/-- C3 witness: under the all-lowercase-"yes" stub the run stops after
exactly one reviewer execution with `iterations = 1`. -/
theorem c3_witness :
    ∃ s' tr', loop genYesLower (6 + 1) (initConversation "s") [] 0 0
        = RunResult.done s' tr' 1 0 ∧ s'.iterations = some 1 :=
  c3_immediate_approval genYesLower (initConversation "s") [] 6
    (fun _ _ _ => rfl) rfl

/-- Any normal completion of a loop entered with a present `code` field
ends with `code`, `history`, `feedback`, `rating` and `code_compare` all
present. -/
lemma loop_done_fields (gen : Gen) (fuel : Nat) :
    ∀ (s : GraphState) (tr : List String) (r c : Nat) (s' : GraphState)
      (tr' : List String) (r' c' : Nat),
      s.code ≠ none →
      loop gen fuel s tr r c = RunResult.done s' tr' r' c' →
      s'.code ≠ none ∧ s'.history ≠ none ∧ s'.feedback ≠ none ∧
        s'.rating ≠ none ∧ s'.code_compare ≠ none := by
  induction fuel with
  | zero =>
    intro s tr r c s' tr' r' c' _ h
    simp [loop] at h
  | succ fuel ih =>
    intro s tr r c s' tr' r' c' hc h
    cases hit : s.iterations with
    | none => simp [loop, handle_reviewer, hit] at h
    | some it =>
      simp only [loop, reviewer_step_eq gen tr s it hit] at h
      rw [router_eq gen _ _ (it + 1) rfl] at h
      simp only [ite_route] at h
      split at h
      · simp only [RunResult.done.injEq] at h
        obtain ⟨h1, _, _, _⟩ := h
        subst h1
        simp [handle_result, hc]
      · refine ih _ _ (r + 1) (c + 1) s' tr' r' c' ?_ h
        simp [handle_coder]

/-- C8: whenever the driver run completes, the five printed values exist
and come out in the fixed source order: final `code`, full `history`,
final `feedback`, `rating`, `code_compare` (the comparison summary). -/
theorem c8_five_outputs (gen : Gen) (fuel : Nat) (s' : GraphState)
    (tr' : List String) (r' c' : Nat)
    (h : app_invoke gen fuel = RunResult.done s' tr' r' c') :
    ∃ a b f d e, s'.code = some a ∧ s'.history = some b ∧ s'.feedback = some f ∧
      s'.rating = some d ∧ s'.code_compare = some e ∧
      printOutputs s' = some [a, b, f, d, e] := by
  simp only [app_invoke] at h
  obtain ⟨h1, h2, h3, h4, h5⟩ :=
    loop_done_fields gen fuel (initConversation (gen 0 problem)) [problem] 0 0
      s' tr' r' c' (by simp [initConversation]) h
  obtain ⟨a, ha⟩ := Option.ne_none_iff_exists'.mp h1
  obtain ⟨b, hb⟩ := Option.ne_none_iff_exists'.mp h2
  obtain ⟨f, hf⟩ := Option.ne_none_iff_exists'.mp h3
  obtain ⟨d, hd⟩ := Option.ne_none_iff_exists'.mp h4
  obtain ⟨e, he⟩ := Option.ne_none_iff_exists'.mp h5
  exact ⟨a, b, f, d, e, ha, hb, hf, hd, he, by simp [printOutputs, ha, hb, hf, hd, he]⟩

/-- Trace of a finished run. -/
def finishedTrace : RunResult → Option (List String)
  | RunResult.done _ tr _ _ => some tr
  | _ => none

/-- Final state of the concrete never-approving driver run. -/
def c8final : GraphState := (finishedState (app_invoke genNo 7)).getD emptyState

/-- Prompt trace of that run. -/
def c8tr : List String := (finishedTrace (app_invoke genNo 7)).getD []

/-- C8 witness: the concrete never-approving driver run completes and its
five outputs are present in order. -/
theorem c8_witness :
    ∃ a b f d e, c8final.code = some a ∧ c8final.history = some b ∧
      c8final.feedback = some f ∧ c8final.rating = some d ∧
      c8final.code_compare = some e ∧
      printOutputs c8final = some [a, b, f, d, e] :=
  c8_five_outputs genNo 7 c8final c8tr 6 5 (by rfl)
